import Mathlib

/-!
Shallow embedding of `netlify/functions/soniclab-api.js` (the single source
file of the repository) and proofs about its router and provider adapters.

Modelling conventions:
* Outbound `fetch` calls are replaced by an oracle environment recording the
  response each call site would observe in this invocation (the generation
  endpoint and the image endpoint as functions of the prompt that is sent,
  the prediction submit call as one response value, and the job-status polls
  as a stream indexed by poll number).
* JavaScript exceptions (`throw new Error(...)`, `TypeError` from a property
  access on `undefined`) are modelled with `Except JsErr`.
* Possibly-absent JSON fields are `Option String`; JS `x || y`, template
  interpolation and truthiness get explicit helper functions.
* The two `while` poll loops (the inline replicate branch at lines 59-66 and
  `callReplicateAPI` at lines 129-134, textual duplicates in the source) are
  embedded as two separate fuel-indexed functions, each also returning the
  number of job-status fetches it performed; `none` means the loop has not
  reached a terminal state within the given fuel (the source loop would still
  be running).
-/

namespace SonicLab

/-- JS `x || fallback` for a possibly-absent string `x` (`undefined` and the
empty string are falsy). -/
def jsOr (x : Option String) (fallback : String) : String :=
  match x with
  | none => fallback
  | some s => if s = "" then fallback else s

/-- JS template-literal interpolation of a possibly-absent string:
an absent value prints as "undefined". -/
def jsTemplate (x : Option String) : String :=
  match x with
  | none => "undefined"
  | some s => s

/-- JS truthiness of a possibly-absent string. -/
def jsTruthy (x : Option String) : Bool :=
  match x with
  | none => false
  | some s => s != ""

/-- JS `s.startsWith(p)`: `p` is a character-prefix of `s`. -/
def jsStartsWith (s p : String) : Bool :=
  p.data.isPrefixOf s.data

/-- A thrown JS exception: either `new Error(message)` or a `TypeError`
raised by a property access on `undefined`/`null`. -/
inductive JsErr where
  | error (message : String)
  | typeError (message : String)
deriving DecidableEq

/-- The `.message` property of a thrown exception. -/
def JsErr.message : JsErr → String
  | .error m => m
  | .typeError m => m

/-- A prediction-job JSON body as the code reads it: the fields `id`,
`status`, `output`, `error` and `detail`, each possibly absent. -/
structure Prediction where
  id : Option String
  status : Option String
  output : Option String
  error : Option String
  detail : Option String
deriving DecidableEq

/-- Response to the prediction submit POST (line 47 / line 121): HTTP status
and parsed JSON body. -/
structure SubmitResp where
  status : Nat
  body : Prediction
deriving DecidableEq

/-- Response to one job-status poll GET (line 61 / line 131): HTTP status and
parsed JSON body. -/
structure PollResp where
  status : Nat
  body : Prediction
deriving DecidableEq

/-- The poll loop of `callReplicateAPI`, source lines 129-134:
    while prediction.status is neither succeeded nor failed:
      sleep 2500; pollResponse = fetch(status endpoint); prediction = json;
      if (pollResponse.status !== 200) throw Error(prediction.detail || ...).
`fuel` bounds the number of polls still allowed (`none` = still running),
`i` is the index of the next poll, and the returned `Nat` is the index just
after the last poll performed, i.e. the number of job-status fetches. -/
def callReplicateAPIPollLoop (polls : Nat → PollResp) :
    Nat → Prediction → Nat → Option (Except JsErr Prediction × Nat)
  | 0, prediction, i =>
    if prediction.status ≠ some "succeeded" ∧ prediction.status ≠ some "failed" then
      none
    else
      some (Except.ok prediction, i)
  | f + 1, prediction, i =>
    if prediction.status ≠ some "succeeded" ∧ prediction.status ≠ some "failed" then
      if (polls i).status ≠ 200 then
        some (Except.error (JsErr.error
          (jsOr (polls i).body.detail "Error al consultar el estado de la tarea.")), i + 1)
      else
        callReplicateAPIPollLoop polls f (polls i).body (i + 1)
    else
      some (Except.ok prediction, i)

/-- `callReplicateAPI`, source lines 120-137.  The outbound `model`/`input`
arguments only feed the submit POST body and are absorbed by the oracle
(`submit` is the response that POST receives).  Result: the value of
`prediction.output` on success, the thrown error otherwise, paired with the
number of job-status fetches performed; `none` if the poll loop is still
running after `fuel` polls. -/
def callReplicateAPI (submit : SubmitResp) (polls : Nat → PollResp)
    (fuel : Nat) : Option (Except JsErr (Option String) × Nat) :=
  let prediction := submit.body
  if submit.status ≠ 201 then
    some (Except.error (JsErr.error
      (jsOr prediction.detail "Error al iniciar la tarea en Replicate.")), 0)
  else
    match callReplicateAPIPollLoop polls fuel prediction 0 with
    | none => none
    | some (Except.error e, n) => some (Except.error e, n)
    | some (Except.ok p, n) =>
      if p.status = some "failed" then
        some (Except.error (JsErr.error
          ("La tarea en Replicate falló: " ++ jsTemplate p.error)), n)
      else
        some (Except.ok p.output, n)

/-- Body of an HTTP response built by the handler (the argument of
`JSON.stringify`): an error object, a type/data object, or the hybrid
object (whose `type` field is the constant string "hybrid-mastering"). -/
inductive RespBody where
  | errorBody (error : String)
  | dataBody (type : String) (data : Option String)
  | hybridBody (brief : String) (audioUrl : Option String)
deriving DecidableEq

/-- An HTTP response returned by the handler. -/
structure Resp where
  statusCode : Nat
  body : RespBody
deriving DecidableEq

/-- The poll loop of the inline replicate branch of the handler, source
lines 59-66 — a textual duplicate of the loop in `callReplicateAPI`,
embedded separately because it is separate code in the source. -/
def replicateBranchPollLoop (polls : Nat → PollResp) :
    Nat → Prediction → Nat → Option (Except JsErr Prediction × Nat)
  | 0, prediction, i =>
    if prediction.status ≠ some "succeeded" ∧ prediction.status ≠ some "failed" then
      none
    else
      some (Except.ok prediction, i)
  | f + 1, prediction, i =>
    if prediction.status ≠ some "succeeded" ∧ prediction.status ≠ some "failed" then
      if (polls i).status ≠ 200 then
        some (Except.error (JsErr.error
          (jsOr (polls i).body.detail "Error al consultar el estado de la tarea.")), i + 1)
      else
        replicateBranchPollLoop polls f (polls i).body (i + 1)
    else
      some (Except.ok prediction, i)

/-- The inline replicate branch of the handler, source lines 46-71: submit,
poll until terminal, throw on `failed`, otherwise return the 200 response
`JSON.stringify of type: toolType, data: prediction.output`.  Paired with the
number of job-status fetches; `none` if the loop is still running. -/
def replicateBranch (toolType : String) (submit : SubmitResp)
    (polls : Nat → PollResp) (fuel : Nat) : Option (Except JsErr Resp × Nat) :=
  let prediction := submit.body
  if submit.status ≠ 201 then
    some (Except.error (JsErr.error
      (jsOr prediction.detail "Error al iniciar la tarea en Replicate.")), 0)
  else
    match replicateBranchPollLoop polls fuel prediction 0 with
    | none => none
    | some (Except.error e, n) => some (Except.error e, n)
    | some (Except.ok p, n) =>
      if p.status = some "failed" then
        some (Except.error (JsErr.error
          ("La tarea en Replicate falló: " ++ jsTemplate p.error)), n)
      else
        some (Except.ok ⟨200, RespBody.dataBody toolType p.output⟩, n)

/-- The `error` object of a provider error body, as read by
`errorData.error?.message`. -/
structure ErrorInfo where
  message : Option String
deriving DecidableEq

/-- JS optional chaining `e?.message` on a possibly-absent error object. -/
def optChainMessage (e : Option ErrorInfo) : Option String :=
  match e with
  | none => none
  | some o => o.message

/-- Parsed JSON body of a generateContent response.  `error` is the `error` field of the body (read on the non-ok path).  `candidatesText` flattens the
access path `candidates[0].content.parts[0].text` (lines 34 and 117):
`some t` when the whole path resolves to the string `t`, `none` when a link
of the path is absent, in which case the access raises a `TypeError`. -/
structure GenBody where
  error : Option ErrorInfo
  candidatesText : Option String
deriving DecidableEq

/-- A generateContent HTTP response: `ok` flag and parsed JSON body. -/
structure GenResp where
  ok : Bool
  body : GenBody
deriving DecidableEq

/-- The access `result.candidates[0].content.parts[0].text`: the string, or
the `TypeError` the access raises when the path is broken. -/
def getCandidatesText (b : GenBody) : Except JsErr String :=
  match b.candidatesText with
  | some t => Except.ok t
  | none => Except.error (JsErr.typeError "Cannot read properties of undefined")

/-- One element of the `predictions` array of the image response. -/
structure ImgPrediction where
  bytesBase64Encoded : Option String
deriving DecidableEq

/-- Parsed JSON body of an image-endpoint response.  `predictions` is absent
(`none`) when the body has no `predictions` field; note an empty array is
truthy in JS, so `some []` and `none` behave differently at line 102. -/
structure ImgBody where
  error : Option ErrorInfo
  predictions : Option (List ImgPrediction)
deriving DecidableEq

/-- An image-endpoint HTTP response. -/
structure ImgResp where
  ok : Bool
  body : ImgBody
deriving DecidableEq

/-- The truthiness test of line 102,
`result.predictions && result.predictions[0]?.bytesBase64Encoded`:
`some s` exactly when the test passes, with `s` the (non-empty) payload. -/
def imagePayload (b : ImgBody) : Option String :=
  match b.predictions with
  | none => none
  | some preds =>
    match preds.head? with
    | none => none
    | some p =>
      match p.bytesBase64Encoded with
      | none => none
      | some s => if s = "" then none else some s

/-- `callImageAPI`, source lines 93-106.  `imgFetch` is the oracle giving the
response of the image endpoint to the prompt that is POSTed. -/
def callImageAPI (prompt : String) (imgFetch : String → ImgResp) : Except JsErr String :=
  let response := imgFetch prompt
  if !response.ok then
    Except.error (JsErr.error
      (jsOr (optChainMessage response.body.error) "Error en la API de Imagen."))
  else
    match imagePayload response.body with
    | some s => Except.ok ("data:image/png;base64," ++ s)
    | none => Except.error (JsErr.error "No se pudo generar la imagen.")

/-- `callGeminiAPI`, source lines 108-118.  `genFetch` is the oracle giving
the response of the generation endpoint to the prompt that is POSTed. -/
def callGeminiAPI (prompt : String) (genFetch : String → GenResp) : Except JsErr String :=
  let response := genFetch prompt
  if !response.ok then
    Except.error (JsErr.error
      (jsOr (optChainMessage response.body.error) "Error en la API de Gemini."))
  else
    getCandidatesText response.body

/-- JS `s.split(sep)[0]` for a non-empty separator, over character lists:
the text strictly before the first occurrence of `sep`, the whole string when
`sep` does not occur. -/
def splitFirstAux (sep : List Char) : List Char → List Char
  | [] => []
  | c :: cs => if sep.isPrefixOf (c :: cs) then [] else c :: splitFirstAux sep cs

/-- JS `s.split(sep)[0]` for a non-empty separator, on strings. -/
def jsSplitFirst (s sep : String) : String :=
  String.mk (splitFirstAux sep.data s.data)

/-- The delimiter marker of line 38, the string `**Tip de Oro`. -/
def tipMarker : String := "**Tip de Oro"

/-- The `replicate_payload` object of the inbound request, with the fields
the hybrid branch reads. -/
structure ReplicatePayload where
  reference_audio : Option String
  userTrack : Option String
  referenceTrack : Option String
deriving DecidableEq

/-- The `inputs` object of the inbound request. -/
structure Inputs where
  prompt : String
  model : String
  replicate_payload : ReplicatePayload
deriving DecidableEq

/-- The parsed inbound request body, `JSON.parse(event.body)` destructured at
line 15.  `toolType` is `none` when the field is absent or null, in which
case `toolType.startsWith` at line 18 raises a `TypeError`. -/
structure ToolRequest where
  toolId : Option String
  toolType : Option String
  inputs : Inputs
deriving DecidableEq

/-- The inbound event.  `parsedBody` is the result of `JSON.parse(event.body)`;
`none` models a body that is not valid JSON (the parse throws). -/
structure Event where
  httpMethod : String
  parsedBody : Option ToolRequest

/-- The oracle environment: the response every outbound call site of this
invocation would observe. -/
structure Env where
  genFetch : String → GenResp
  imageFetch : String → ImgResp
  submitResp : SubmitResp
  polls : Nat → PollResp

/-- The brief prompt built in the hybrid branch, source line 76. -/
def hybridBriefPrompt (reference_audio : Option String) : String :=
  "Actúa como un ingeniero de mastering de clase mundial. Voy a masterizar una canción. " ++
  (if jsTruthy reference_audio then
    "Quiero que suene como la canción de referencia que he subido."
  else
    "No tengo una referencia.") ++
  " Describe en 3 puntos clave un plan de mastering para darle potencia, claridad y un carácter comercial."

/-- The model id the hybrid branch submits, source line 80. -/
def hybridModelId : String :=
  "cjwbw/audiotools-v1:9a73e059728551733696536675a6493dfd08b3303530f78275508be61036815a"

/-- The body of the `try` block, source lines 11-84: JSON parse, dispatch on
`toolType`, and the three branches.  `some (Except.ok r)` is a `return r`
(`r = none` being the implicit `return undefined` fall-through after line 83),
`some (Except.error e)` an exception unwinding to the catch boundary, `none`
a poll loop still running within `fuel`. -/
def handlerTryBody (env : Env) (event : Event) (fuel : Nat) :
    Option (Except JsErr (Option Resp)) :=
  match event.parsedBody with
  | none => some (Except.error (JsErr.error "Unexpected token in JSON"))
  | some body =>
    match body.toolType with
    | none => some (Except.error (JsErr.typeError "Cannot read properties of undefined"))
    | some toolType =>
      if jsStartsWith toolType "gemini" then
        let response := env.genFetch body.inputs.prompt
        if !response.ok then
          some (Except.error (JsErr.error
            (jsOr (optChainMessage response.body.error) "Error en la API de Gemini.")))
        else
          match getCandidatesText response.body with
          | Except.error e => some (Except.error e)
          | Except.ok textContent =>
            if toolType = "gemini-image" then
              match callImageAPI (jsSplitFirst textContent tipMarker) env.imageFetch with
              | Except.error e => some (Except.error e)
              | Except.ok imageUrl =>
                some (Except.ok (some ⟨200, RespBody.dataBody "gemini-image" (some imageUrl)⟩))
            else
              some (Except.ok (some ⟨200, RespBody.dataBody toolType (some textContent)⟩))
      else if jsStartsWith toolType "replicate" then
        match replicateBranch toolType env.submitResp env.polls fuel with
        | none => none
        | some (Except.error e, _) => some (Except.error e)
        | some (Except.ok resp, _) => some (Except.ok (some resp))
      else if toolType = "hybrid-mastering" then
        match callGeminiAPI (hybridBriefPrompt body.inputs.replicate_payload.reference_audio)
            env.genFetch with
        | Except.error e => some (Except.error e)
        | Except.ok brief =>
          match callReplicateAPI env.submitResp env.polls fuel with
          | none => none
          | some (Except.error e, _) => some (Except.error e)
          | some (Except.ok audioUrl, _) =>
            some (Except.ok (some ⟨200, RespBody.hybridBody brief audioUrl⟩))
      else
        some (Except.ok none)

/-- `exports.handler`, source lines 5-90: the method gate, the try body, and
the catch boundary mapping any thrown error to a 500 `JSON.stringify with an
error field` response.  `some none` is the implicit `undefined` return;
`none` means a poll loop is still running within `fuel`. -/
def handler (env : Env) (event : Event) (fuel : Nat) : Option (Option Resp) :=
  if event.httpMethod ≠ "POST" then
    some (some ⟨405, RespBody.errorBody "Method Not Allowed"⟩)
  else
    match handlerTryBody env event fuel with
    | none => none
    | some (Except.ok r) => some r
    | some (Except.error e) => some (some ⟨500, RespBody.errorBody e.message⟩)

/-- Modelled from the spec: what the serverless platform makes of the
return value of the handler is not part of the repository source.  Per the spec,
a handler that returns `undefined` "implicitly returns no body with status
200".  The pair is (observed HTTP status, observed body). -/
def platformObserved : Option Resp → Nat × Option RespBody
  | some r => (r.statusCode, some r.body)
  | none => (200, none)

/-- A job status that is not terminal: neither `succeeded` nor `failed`. -/
def nonTerminalStatus (s : Option String) : Prop :=
  s ≠ some "succeeded" ∧ s ≠ some "failed"

instance (s : Option String) : Decidable (nonTerminalStatus s) := by
  unfold nonTerminalStatus; infer_instance

/-- A poll response that stops the loop: non-200 transport status, or a body
in a terminal status. -/
def stopsPoll (r : PollResp) : Prop :=
  r.status ≠ 200 ∨ r.body.status = some "succeeded" ∨ r.body.status = some "failed"

instance (r : PollResp) : Decidable (stopsPoll r) := by
  unfold stopsPoll; infer_instance

/-- The two textual copies of the poll loop (inline branch and
`callReplicateAPI`) compute the same function. -/
theorem pollLoop_copies_eq (polls : Nat → PollResp) :
    ∀ fuel p i, replicateBranchPollLoop polls fuel p i = callReplicateAPIPollLoop polls fuel p i := by
  intro fuel
  induction fuel with
  | zero => intro p i; rfl
  | succ f ih =>
    intro p i
    simp only [replicateBranchPollLoop, callReplicateAPIPollLoop]
    by_cases hc : p.status ≠ some "succeeded" ∧ p.status ≠ some "failed"
    · simp only [if_pos hc]
      by_cases hs : (polls i).status ≠ 200
      · simp only [if_pos hs]
      · simp only [if_neg hs, ih]
    · simp only [if_neg hc]

/-- On a prediction already in a terminal status the loop returns at once,
whatever the fuel. -/
theorem pollLoop_terminal (polls : Nat → PollResp) (fuel : Nat) (p : Prediction) (i : Nat)
    (h : ¬(p.status ≠ some "succeeded" ∧ p.status ≠ some "failed")) :
    callReplicateAPIPollLoop polls fuel p i = some (Except.ok p, i) := by
  cases fuel <;> simp only [callReplicateAPIPollLoop, if_neg h]

/-- If some poll inside the fuel window stops the loop, the loop does not run
out of fuel. -/
theorem pollLoop_stops (polls : Nat → PollResp) :
    ∀ fuel p i, (∃ j, i ≤ j ∧ j < i + fuel ∧ stopsPoll (polls j)) →
      callReplicateAPIPollLoop polls fuel p i ≠ none := by
  intro fuel
  induction fuel with
  | zero =>
    intro p i h
    rcases h with ⟨j, hij, hj, _⟩
    omega
  | succ f ih =>
    intro p i h
    by_cases hc : p.status ≠ some "succeeded" ∧ p.status ≠ some "failed"
    · simp only [callReplicateAPIPollLoop, if_pos hc]
      by_cases hs : (polls i).status ≠ 200
      · simp only [if_pos hs]
        exact fun hcon => Option.noConfusion hcon
      · simp only [if_neg hs]
        rcases h with ⟨j, hij, hj, hstop⟩
        by_cases hji : j = i
        · subst hji
          have hterm : ¬((polls j).body.status ≠ some "succeeded" ∧
              (polls j).body.status ≠ some "failed") := by
            rcases hstop with h200 | h' | h'
            · exact absurd h200 hs
            · simp [h']
            · simp [h']
          rw [pollLoop_terminal polls f (polls j).body (j + 1) hterm]
          exact fun hcon => Option.noConfusion hcon
        · exact ih (polls i).body (i + 1) ⟨j, by omega, by omega, hstop⟩
    · simp only [callReplicateAPIPollLoop, if_neg hc]
      exact fun hcon => Option.noConfusion hcon

/-- Against a stream in which every poll is HTTP 200 with a non-terminal
status, the loop consumes all fuel: it never reaches a result. -/
theorem pollLoop_live (polls : Nat → PollResp)
    (hall : ∀ k, (polls k).status = 200 ∧ nonTerminalStatus (polls k).body.status) :
    ∀ fuel p i, nonTerminalStatus p.status → callReplicateAPIPollLoop polls fuel p i = none := by
  intro fuel
  induction fuel with
  | zero =>
    intro p i hp
    simp only [callReplicateAPIPollLoop, if_pos (And.intro hp.1 hp.2)]
  | succ f ih =>
    intro p i hp
    simp only [callReplicateAPIPollLoop, if_pos (And.intro hp.1 hp.2)]
    rw [if_neg (by simp [(hall i).1])]
    exact ih (polls i).body (i + 1) (hall i).2

/-- Characterisation of `splitFirstAux` at the first occurrence of the
separator: if the separator occurs at index `k` and at no earlier index, the
result is the first `k` characters. -/
theorem splitFirstAux_eq_take (sep : List Char) :
    ∀ k t, sep.isPrefixOf (List.drop k t) = true →
      (∀ j, j < k → sep.isPrefixOf (List.drop j t) = false) →
      splitFirstAux sep t = List.take k t := by
  intro k
  induction k with
  | zero =>
    intro t hk _
    cases t with
    | nil => rfl
    | cons c cs =>
      simp only [List.drop_zero] at hk
      simp only [splitFirstAux, hk, if_true, List.take_zero]
  | succ k ih =>
    intro t hk hmin
    cases t with
    | nil =>
      have h0 := hmin 0 (Nat.succ_pos k)
      simp only [List.drop_nil] at hk h0
      rw [h0] at hk
      exact absurd hk (by simp)
    | cons c cs =>
      have h0 := hmin 0 (Nat.succ_pos k)
      simp only [List.drop_zero] at h0
      simp only [splitFirstAux, h0, Bool.false_eq_true, if_false, List.take_succ_cons]
      refine congrArg (c :: ·) ?_
      refine ih cs hk ?_
      intro j hj
      exact hmin (j + 1) (Nat.succ_lt_succ hj)

/-- C1: for a submit call answering HTTP 201 with a non-terminal status,
followed by a poll answering 200/`processing` and a poll answering
200/`succeeded` with output `"result-url"`, the prediction adapter (both the
`callReplicateAPI` helper and the inline replicate branch) performs exactly
two fetches of the job-status endpoint and returns `"result-url"`. -/
theorem claim_C1 (toolType : String) (submit : SubmitResp) (polls : Nat → PollResp)
    (fuel : Nat)
    (hsub : submit.status = 201)
    (hstart : nonTerminalStatus submit.body.status)
    (h0 : (polls 0).status = 200) (h0s : (polls 0).body.status = some "processing")
    (h1 : (polls 1).status = 200) (h1s : (polls 1).body.status = some "succeeded")
    (h1o : (polls 1).body.output = some "result-url")
    (hfuel : 2 ≤ fuel) :
    callReplicateAPI submit polls fuel = some (Except.ok (some "result-url"), 2) ∧
    replicateBranch toolType submit polls fuel =
      some (Except.ok ⟨200, RespBody.dataBody toolType (some "result-url")⟩, 2) := by
  obtain ⟨f, rfl⟩ : ∃ f, fuel = (f + 1) + 1 := ⟨fuel - 2, by omega⟩
  have hloop : callReplicateAPIPollLoop polls ((f + 1) + 1) submit.body 0 =
      some (Except.ok ((polls 1).body), 2) := by
    simp only [callReplicateAPIPollLoop, if_pos (And.intro hstart.1 hstart.2)]
    rw [if_neg (by simp [h0])]
    have hnt0 : (polls 0).body.status ≠ some "succeeded" ∧
        (polls 0).body.status ≠ some "failed" := by
      rw [h0s]; exact ⟨by decide, by decide⟩
    simp only [callReplicateAPIPollLoop, if_pos hnt0]
    rw [if_neg (by simp [h1])]
    exact pollLoop_terminal polls f (polls 1).body 2 (by rw [h1s]; simp)
  have hterm : ¬((polls 1).body.status = some "failed") := by rw [h1s]; decide
  constructor
  · simp only [callReplicateAPI]
    rw [if_neg (by simp [hsub]), hloop]
    simp only [if_neg hterm, h1o]
  · simp only [replicateBranch]
    rw [if_neg (by simp [hsub]), pollLoop_copies_eq, hloop]
    simp only [if_neg hterm, h1o]

/-- A prediction body in the non-terminal status `starting`. -/
def wStarting : Prediction := ⟨some "pid", some "starting", none, none, none⟩

/-- A prediction body in status `processing`. -/
def wProcessing : Prediction := ⟨some "pid", some "processing", none, none, none⟩

/-- A prediction body in status `succeeded` with output `"result-url"`. -/
def wSucceeded : Prediction := ⟨some "pid", some "succeeded", some "result-url", none, none⟩

/-- A prediction body in status `failed` with error `"OOM"`. -/
def wFailedOOM : Prediction := ⟨some "pid", some "failed", none, some "OOM", none⟩

/-- Poll stream: first `processing`, then `succeeded`. -/
def wPollsC1 : Nat → PollResp := fun i => if i = 0 then ⟨200, wProcessing⟩ else ⟨200, wSucceeded⟩

/-- Poll stream: every poll answers 200/`succeeded`. -/
def wPollsStop : Nat → PollResp := fun _ => ⟨200, wSucceeded⟩

/-- Poll stream: every poll answers 200/`processing` (never terminal). -/
def wPollsLive : Nat → PollResp := fun _ => ⟨200, wProcessing⟩

/-- Poll stream: the first poll already reports terminal status `failed`
with error `"OOM"`. -/
def wPollsFail : Nat → PollResp := fun _ => ⟨200, wFailedOOM⟩

theorem claim_C1_witness :
    callReplicateAPI ⟨201, wStarting⟩ wPollsC1 2 = some (Except.ok (some "result-url"), 2) ∧
    replicateBranch "replicate-upscale" ⟨201, wStarting⟩ wPollsC1 2 =
      some (Except.ok ⟨200, RespBody.dataBody "replicate-upscale" (some "result-url")⟩, 2) :=
  claim_C1 "replicate-upscale" ⟨201, wStarting⟩ wPollsC1 2 rfl (by decide)
    rfl (by decide) rfl (by decide) (by decide) (by decide)

/-- C2: the poll loop (in both its textual copies), run against an oracle
stream of poll responses, terminates whenever some poll response carries a
terminal status or a non-200 HTTP status; against a stream in which every
poll response is HTTP 200 with a non-terminal status (and a non-terminal
starting prediction) it never terminates, whatever the fuel — there is no
maximum-attempt or deadline bound. -/
theorem claim_C2 (polls : Nat → PollResp) (p : Prediction) :
    ((∃ k, stopsPoll (polls k)) →
      ∃ fuel r, callReplicateAPIPollLoop polls fuel p 0 = some r ∧
        replicateBranchPollLoop polls fuel p 0 = some r) ∧
    ((nonTerminalStatus p.status ∧
        ∀ k, (polls k).status = 200 ∧ nonTerminalStatus (polls k).body.status) →
      ∀ fuel, callReplicateAPIPollLoop polls fuel p 0 = none ∧
        replicateBranchPollLoop polls fuel p 0 = none) := by
  constructor
  · rintro ⟨k, hk⟩
    have h := pollLoop_stops polls (k + 1) p 0 ⟨k, by omega, by omega, hk⟩
    rcases hr : callReplicateAPIPollLoop polls (k + 1) p 0 with _ | r
    · exact absurd hr h
    · exact ⟨k + 1, r, hr, by rw [pollLoop_copies_eq]; exact hr⟩
  · rintro ⟨hp, hall⟩ fuel
    refine ⟨pollLoop_live polls hall fuel p 0 hp, ?_⟩
    rw [pollLoop_copies_eq]
    exact pollLoop_live polls hall fuel p 0 hp

theorem claim_C2_witness :
    (∃ fuel r, callReplicateAPIPollLoop wPollsStop fuel wStarting 0 = some r ∧
      replicateBranchPollLoop wPollsStop fuel wStarting 0 = some r) ∧
    (callReplicateAPIPollLoop wPollsLive 5 wStarting 0 = none ∧
      replicateBranchPollLoop wPollsLive 5 wStarting 0 = none) :=
  ⟨(claim_C2 wPollsStop wStarting).1 ⟨0, Or.inr (Or.inl rfl)⟩,
   (claim_C2 wPollsLive wStarting).2
     ⟨by decide, fun _ => ⟨rfl, (by decide : nonTerminalStatus (some "processing"))⟩⟩ 5⟩

/-- C3: when the job reaches terminal status `failed` with provider error
field `"OOM"`, the adapter throws an error whose message contains the
substring `"OOM"`, and the router maps that failure to a 500 response
carrying the message text. -/
theorem claim_C3 (env : Env) (event : Event) (req : ToolRequest) (toolType : String)
    (fuel n : Nat) (p : Prediction)
    (hm : event.httpMethod = "POST") (hb : event.parsedBody = some req)
    (ht : req.toolType = some toolType)
    (hgem : jsStartsWith toolType "gemini" = false)
    (hrep : jsStartsWith toolType "replicate" = true)
    (hsub : env.submitResp.status = 201)
    (hloop : callReplicateAPIPollLoop env.polls fuel env.submitResp.body 0 =
      some (Except.ok p, n))
    (hfail : p.status = some "failed") (herr : p.error = some "OOM") :
    callReplicateAPI env.submitResp env.polls fuel =
      some (Except.error (JsErr.error "La tarea en Replicate falló: OOM"), n) ∧
    (∃ pre post, "La tarea en Replicate falló: OOM" = pre ++ "OOM" ++ post) ∧
    handler env event fuel =
      some (some ⟨500, RespBody.errorBody "La tarea en Replicate falló: OOM"⟩) := by
  have hcall : callReplicateAPI env.submitResp env.polls fuel =
      some (Except.error (JsErr.error "La tarea en Replicate falló: OOM"), n) := by
    simp only [callReplicateAPI]
    rw [if_neg (by simp [hsub]), hloop]
    simp only [hfail, herr, jsTemplate, reduceIte]
    rfl
  refine ⟨hcall, ⟨"La tarea en Replicate falló: ", "", by rfl⟩, ?_⟩
  have hbranch : replicateBranch toolType env.submitResp env.polls fuel =
      some (Except.error (JsErr.error "La tarea en Replicate falló: OOM"), n) := by
    simp only [replicateBranch]
    rw [if_neg (by simp [hsub]), pollLoop_copies_eq, hloop]
    simp only [hfail, herr, jsTemplate, reduceIte]
    rfl
  simp only [handler, handlerTryBody, hm, hb, ht, hgem, hrep, hbranch]
  rfl

theorem claim_C3_witness :
    callReplicateAPI ⟨201, wStarting⟩ wPollsFail 1 =
      some (Except.error (JsErr.error "La tarea en Replicate falló: OOM"), 1) ∧
    (∃ pre post, "La tarea en Replicate falló: OOM" = pre ++ "OOM" ++ post) ∧
    handler ⟨fun _ => ⟨true, ⟨none, some "text"⟩⟩, fun _ => ⟨true, ⟨none, none⟩⟩,
        ⟨201, wStarting⟩, wPollsFail⟩
      ⟨"POST", some ⟨some "tool-1", some "replicate-audio", ⟨"p", "m", ⟨none, none, none⟩⟩⟩⟩ 1 =
      some (some ⟨500, RespBody.errorBody "La tarea en Replicate falló: OOM"⟩) :=
  claim_C3 ⟨fun _ => ⟨true, ⟨none, some "text"⟩⟩, fun _ => ⟨true, ⟨none, none⟩⟩,
      ⟨201, wStarting⟩, wPollsFail⟩
    ⟨"POST", some ⟨some "tool-1", some "replicate-audio", ⟨"p", "m", ⟨none, none, none⟩⟩⟩⟩
    ⟨some "tool-1", some "replicate-audio", ⟨"p", "m", ⟨none, none, none⟩⟩⟩
    "replicate-audio" 1 1 wFailedOOM rfl rfl rfl (by decide) (by decide) rfl rfl rfl rfl

/-- C4: the inline replicate branch of the router and the helper
`callReplicateAPI` are behaviourally identical: for every submit response,
every stream of poll responses and every fuel, the outcome of the branch is
the outcome of the helper — same divergence, same thrown error, same poll
count, and on success the output of the job wrapped in the 200 response. -/
theorem claim_C4 (toolType : String) (submit : SubmitResp) (polls : Nat → PollResp)
    (fuel : Nat) :
    replicateBranch toolType submit polls fuel =
      Option.map (fun r =>
          (Except.map (fun out => Resp.mk 200 (RespBody.dataBody toolType out)) r.1, r.2))
        (callReplicateAPI submit polls fuel) := by
  simp only [replicateBranch, callReplicateAPI, pollLoop_copies_eq]
  by_cases hs : submit.status ≠ 201
  · simp [if_pos hs, Except.map]
  · simp only [if_neg hs]
    rcases h : callReplicateAPIPollLoop polls fuel submit.body 0 with _ | ⟨e | p, n⟩
    · rfl
    · simp [Except.map]
    · by_cases hf : p.status = some "failed"
      · simp [if_pos hf, Except.map]
      · simp [if_neg hf, Except.map]

/-- C5: for a POST whose parsed `toolType` matches none of the recognized
discriminators (no `gemini` prefix, no `replicate` prefix, not
`hybrid-mastering`), the handler falls through every branch and returns no
explicit response (JS `undefined`), which the platform — modelled from the
spec — observes as status 200 with no body. -/
theorem claim_C5 (env : Env) (event : Event) (req : ToolRequest) (toolType : String)
    (fuel : Nat)
    (hm : event.httpMethod = "POST") (hb : event.parsedBody = some req)
    (ht : req.toolType = some toolType)
    (hgem : jsStartsWith toolType "gemini" = false)
    (hrep : jsStartsWith toolType "replicate" = false)
    (hhyb : toolType ≠ "hybrid-mastering") :
    handler env event fuel = some none ∧
    Option.map platformObserved (handler env event fuel) = some (200, none) := by
  have h : handler env event fuel = some none := by
    simp only [handler, handlerTryBody, hm, hb, ht, hgem, hrep]
    simp [hhyb]
  exact ⟨h, by rw [h]; rfl⟩

/-- A typical request environment for the witnesses: the generation endpoint
succeeds with a fixed text, the image endpoint succeeds with payload `B64`,
the submit call answers 201/`starting` and every poll answers
200/`succeeded`. -/
def wEnv : Env :=
  ⟨fun _ => ⟨true, ⟨none, some "brief text"⟩⟩,
   fun _ => ⟨true, ⟨none, some [⟨some "B64"⟩]⟩⟩,
   ⟨201, wStarting⟩, wPollsStop⟩

/-- A POST event with the given `toolType` and fixed inputs. -/
def wEvent (tt : Option String) : Event :=
  ⟨"POST", some ⟨some "tool-1", tt, ⟨"a prompt", "model-v1", ⟨none, none, none⟩⟩⟩⟩

theorem claim_C5_witness :
    handler wEnv (wEvent (some "whatever")) 1 = some none ∧
    Option.map platformObserved (handler wEnv (wEvent (some "whatever")) 1) =
      some (200, none) :=
  claim_C5 wEnv (wEvent (some "whatever")) ⟨some "tool-1", some "whatever",
      ⟨"a prompt", "model-v1", ⟨none, none, none⟩⟩⟩ "whatever" 1
    rfl rfl rfl (by decide) (by decide) (by decide)

/-- C6: the hybrid-mastering branch is atomic at the response boundary: an
invocation either returns a single 200 response carrying both stage outputs
(the `brief` of the generation stage and the `audioUrl` of the prediction stage), or a
single 500 failure response with no partial result; `none` is the invocation
that never returns because the poll loop is still running. -/
theorem claim_C6 (env : Env) (event : Event) (req : ToolRequest) (fuel : Nat)
    (hm : event.httpMethod = "POST") (hb : event.parsedBody = some req)
    (ht : req.toolType = some "hybrid-mastering") :
    handler env event fuel = none ∨
    (∃ msg, handler env event fuel = some (some ⟨500, RespBody.errorBody msg⟩)) ∨
    (∃ brief audioUrl n,
      callGeminiAPI (hybridBriefPrompt req.inputs.replicate_payload.reference_audio)
        env.genFetch = Except.ok brief ∧
      callReplicateAPI env.submitResp env.polls fuel = some (Except.ok audioUrl, n) ∧
      handler env event fuel = some (some ⟨200, RespBody.hybridBody brief audioUrl⟩)) := by
  have hgem : jsStartsWith "hybrid-mastering" "gemini" = false := by decide
  have hrep : jsStartsWith "hybrid-mastering" "replicate" = false := by decide
  rcases hg : callGeminiAPI (hybridBriefPrompt req.inputs.replicate_payload.reference_audio)
      env.genFetch with e | brief
  · refine Or.inr (Or.inl ⟨e.message, ?_⟩)
    simp [handler, handlerTryBody, hm, hb, ht, hgem, hrep, hg]
  · rcases hr : callReplicateAPI env.submitResp env.polls fuel with _ | ⟨e2 | audioUrl, n⟩
    · refine Or.inl ?_
      simp [handler, handlerTryBody, hm, hb, ht, hgem, hrep, hg, hr]
    · refine Or.inr (Or.inl ⟨e2.message, ?_⟩)
      simp [handler, handlerTryBody, hm, hb, ht, hgem, hrep, hg, hr]
    · refine Or.inr (Or.inr ⟨brief, audioUrl, n, rfl, rfl, ?_⟩)
      simp [handler, handlerTryBody, hm, hb, ht, hgem, hrep, hg, hr]

theorem claim_C6_witness :
    handler wEnv (wEvent (some "hybrid-mastering")) 1 = none ∨
    (∃ msg, handler wEnv (wEvent (some "hybrid-mastering")) 1 =
      some (some ⟨500, RespBody.errorBody msg⟩)) ∨
    (∃ brief audioUrl n,
      callGeminiAPI (hybridBriefPrompt (none : Option String)) wEnv.genFetch =
        Except.ok brief ∧
      callReplicateAPI wEnv.submitResp wEnv.polls 1 = some (Except.ok audioUrl, n) ∧
      handler wEnv (wEvent (some "hybrid-mastering")) 1 =
        some (some ⟨200, RespBody.hybridBody brief audioUrl⟩)) :=
  claim_C6 wEnv (wEvent (some "hybrid-mastering"))
    ⟨some "tool-1", some "hybrid-mastering", ⟨"a prompt", "model-v1", ⟨none, none, none⟩⟩⟩ 1
    rfl rfl rfl

/-- C7: for every non-POST request the handler returns 405 with the
Method Not Allowed error body, and no adapter is invoked: the result does
not depend on the oracle environment (no outbound response is ever
consulted) nor on the fuel. -/
theorem claim_C7 (env : Env) (event : Event) (fuel : Nat)
    (hm : event.httpMethod ≠ "POST") :
    handler env event fuel = some (some ⟨405, RespBody.errorBody "Method Not Allowed"⟩) ∧
    ∀ env2 fuel2, handler env2 event fuel2 = handler env event fuel := by
  have h : ∀ (e : Env) (f : Nat),
      handler e event f = some (some ⟨405, RespBody.errorBody "Method Not Allowed"⟩) := by
    intro e f
    simp [handler, hm]
  exact ⟨h env fuel, fun env2 fuel2 => by rw [h, h]⟩

theorem claim_C7_witness :
    handler wEnv ⟨"GET", some ⟨some "tool-1", some "gemini-chat",
        ⟨"a prompt", "model-v1", ⟨none, none, none⟩⟩⟩⟩ 1 =
      some (some ⟨405, RespBody.errorBody "Method Not Allowed"⟩) ∧
    ∀ env2 fuel2, handler env2 ⟨"GET", some ⟨some "tool-1", some "gemini-chat",
        ⟨"a prompt", "model-v1", ⟨none, none, none⟩⟩⟩⟩ fuel2 =
      handler wEnv ⟨"GET", some ⟨some "tool-1", some "gemini-chat",
        ⟨"a prompt", "model-v1", ⟨none, none, none⟩⟩⟩⟩ 1 :=
  claim_C7 wEnv ⟨"GET", some ⟨some "tool-1", some "gemini-chat",
      ⟨"a prompt", "model-v1", ⟨none, none, none⟩⟩⟩⟩ 1 (by decide)

/-- C8: for a gemini-family request whose generation endpoint answers a
non-ok status, the handler responds 500 with the provider-supplied message
extracted by `errorData.error?.message || fallback`; in particular with body
error message "quota exceeded" the response body is exactly that message, and
with no provider message it is the generic fallback. -/
theorem claim_C8 (env : Env) (event : Event) (req : ToolRequest) (toolType : String)
    (fuel : Nat)
    (hm : event.httpMethod = "POST") (hb : event.parsedBody = some req)
    (ht : req.toolType = some toolType)
    (hgem : jsStartsWith toolType "gemini" = true)
    (hok : (env.genFetch req.inputs.prompt).ok = false) :
    handler env event fuel = some (some ⟨500, RespBody.errorBody
      (jsOr (optChainMessage (env.genFetch req.inputs.prompt).body.error)
        "Error en la API de Gemini.")⟩) ∧
    (optChainMessage (env.genFetch req.inputs.prompt).body.error = some "quota exceeded" →
      handler env event fuel = some (some ⟨500, RespBody.errorBody "quota exceeded"⟩)) ∧
    (optChainMessage (env.genFetch req.inputs.prompt).body.error = none →
      handler env event fuel =
        some (some ⟨500, RespBody.errorBody "Error en la API de Gemini."⟩)) := by
  have h : handler env event fuel = some (some ⟨500, RespBody.errorBody
      (jsOr (optChainMessage (env.genFetch req.inputs.prompt).body.error)
        "Error en la API de Gemini.")⟩) := by
    simp [handler, handlerTryBody, hm, hb, ht, hgem, hok, JsErr.message]
  refine ⟨h, fun hmsg => ?_, fun hmsg => ?_⟩
  · rw [h, hmsg]
    rfl
  · rw [h, hmsg]
    rfl

/-- Oracle environment for the C8 witness: the generation endpoint fails
with provider message "quota exceeded". -/
def wEnvQuota : Env :=
  ⟨fun _ => ⟨false, ⟨some ⟨some "quota exceeded"⟩, none⟩⟩,
   fun _ => ⟨true, ⟨none, some [⟨some "B64"⟩]⟩⟩,
   ⟨201, wStarting⟩, wPollsStop⟩

theorem claim_C8_witness :
    handler wEnvQuota (wEvent (some "gemini-chat")) 1 =
      some (some ⟨500, RespBody.errorBody
        (jsOr (optChainMessage (wEnvQuota.genFetch "a prompt").body.error)
          "Error en la API de Gemini.")⟩) ∧
    (optChainMessage (wEnvQuota.genFetch "a prompt").body.error = some "quota exceeded" →
      handler wEnvQuota (wEvent (some "gemini-chat")) 1 =
        some (some ⟨500, RespBody.errorBody "quota exceeded"⟩)) ∧
    (optChainMessage (wEnvQuota.genFetch "a prompt").body.error = none →
      handler wEnvQuota (wEvent (some "gemini-chat")) 1 =
        some (some ⟨500, RespBody.errorBody "Error en la API de Gemini."⟩)) :=
  claim_C8 wEnvQuota (wEvent (some "gemini-chat"))
    ⟨some "tool-1", some "gemini-chat", ⟨"a prompt", "model-v1", ⟨none, none, none⟩⟩⟩
    "gemini-chat" 1 rfl rfl rfl (by decide) rfl

/-- C9: for a `gemini-image` request whose text-generation result contains
the delimiter marker (first occurrence at character index `k`), only the text
strictly preceding the marker is passed as the prompt to the image endpoint;
when the success response of the image endpoint contains a base64 payload the
adapter returns it prefixed with `data:image/png;base64,` (and the router
wraps it in a 200 response), and when no payload is present the adapter
fails with the could-not-generate-image error. -/
theorem claim_C9 (env : Env) (event : Event) (req : ToolRequest) (fuel k : Nat) (t : String)
    (hm : event.httpMethod = "POST") (hb : event.parsedBody = some req)
    (ht : req.toolType = some "gemini-image")
    (hok : (env.genFetch req.inputs.prompt).ok = true)
    (htext : (env.genFetch req.inputs.prompt).body.candidatesText = some t)
    (hocc : tipMarker.data.isPrefixOf (List.drop k t.data) = true)
    (hmin : ∀ j, j < k → tipMarker.data.isPrefixOf (List.drop j t.data) = false) :
    jsSplitFirst t tipMarker = String.mk (List.take k t.data) ∧
    (∀ s, (env.imageFetch (String.mk (List.take k t.data))).ok = true →
      imagePayload (env.imageFetch (String.mk (List.take k t.data))).body = some s →
      callImageAPI (String.mk (List.take k t.data)) env.imageFetch =
        Except.ok ("data:image/png;base64," ++ s) ∧
      handler env event fuel = some (some ⟨200,
        RespBody.dataBody "gemini-image" (some ("data:image/png;base64," ++ s))⟩)) ∧
    ((env.imageFetch (String.mk (List.take k t.data))).ok = true →
      imagePayload (env.imageFetch (String.mk (List.take k t.data))).body = none →
      callImageAPI (String.mk (List.take k t.data)) env.imageFetch =
        Except.error (JsErr.error "No se pudo generar la imagen.") ∧
      handler env event fuel =
        some (some ⟨500, RespBody.errorBody "No se pudo generar la imagen."⟩)) := by
  have hsplit : jsSplitFirst t tipMarker = String.mk (List.take k t.data) := by
    unfold jsSplitFirst
    rw [splitFirstAux_eq_take tipMarker.data k t.data hocc hmin]
  have hgem : jsStartsWith "gemini-image" "gemini" = true := by decide
  refine ⟨hsplit, ?_, ?_⟩
  · intro s hiok hipay
    have hcall : callImageAPI (String.mk (List.take k t.data)) env.imageFetch =
        Except.ok ("data:image/png;base64," ++ s) := by
      simp [callImageAPI, hiok, hipay]
    refine ⟨hcall, ?_⟩
    simp [handler, handlerTryBody, hm, hb, ht, hgem, hok, getCandidatesText, htext,
      hsplit, hcall]
  · intro hiok hipay
    have hcall : callImageAPI (String.mk (List.take k t.data)) env.imageFetch =
        Except.error (JsErr.error "No se pudo generar la imagen.") := by
      simp [callImageAPI, hiok, hipay]
    refine ⟨hcall, ?_⟩
    simp [handler, handlerTryBody, hm, hb, ht, hgem, hok, getCandidatesText, htext,
      hsplit, hcall, JsErr.message]

/-- Oracle environment for the C9 witness: the text generation succeeds with
a text containing the tip marker at index 2, the image endpoint succeeds
with payload `B64`. -/
def wEnvImg : Env :=
  ⟨fun _ => ⟨true, ⟨none, some "hi**Tip de Oro tail"⟩⟩,
   fun _ => ⟨true, ⟨none, some [⟨some "B64"⟩]⟩⟩,
   ⟨201, wStarting⟩, wPollsStop⟩

theorem claim_C9_witness :
    callImageAPI (String.mk (List.take 2 ("hi**Tip de Oro tail" : String).data))
        wEnvImg.imageFetch = Except.ok ("data:image/png;base64," ++ "B64") ∧
    handler wEnvImg (wEvent (some "gemini-image")) 1 = some (some ⟨200,
      RespBody.dataBody "gemini-image" (some ("data:image/png;base64," ++ "B64"))⟩) :=
  (claim_C9 wEnvImg (wEvent (some "gemini-image"))
    ⟨some "tool-1", some "gemini-image", ⟨"a prompt", "model-v1", ⟨none, none, none⟩⟩⟩
    1 2 "hi**Tip de Oro tail" rfl rfl rfl rfl rfl (by decide) (by decide)).2.1 "B64" rfl rfl

/-- C10: a POST with valid JSON whose `toolType` is null or undefined does
not crash the handler: the `TypeError` raised by the prefix test on
`toolType` unwinds to the catch boundary and becomes a 500 response with an
error-message body. -/
theorem claim_C10 (env : Env) (event : Event) (req : ToolRequest) (fuel : Nat)
    (hm : event.httpMethod = "POST") (hb : event.parsedBody = some req)
    (ht : req.toolType = none) :
    ∃ msg, handler env event fuel = some (some ⟨500, RespBody.errorBody msg⟩) := by
  refine ⟨"Cannot read properties of undefined", ?_⟩
  simp [handler, handlerTryBody, hm, hb, ht, JsErr.message]

theorem claim_C10_witness :
    ∃ msg, handler wEnv (wEvent none) 1 = some (some ⟨500, RespBody.errorBody msg⟩) :=
  claim_C10 wEnv (wEvent none)
    ⟨some "tool-1", none, ⟨"a prompt", "model-v1", ⟨none, none, none⟩⟩⟩ 1 rfl rfl rfl

end SonicLab
